import Mathlib

set_option autoImplicit false

/-!
Verification of the disentangle drivers of
src/utility/disentangle/disentangle_trunc_error.py (disoTPS).

The file shallowly embeds the four disentangle drivers and the two
dispatchers.  The collaborating modules (the iterate classes, the Stiefel
manifold record, the two optimizer engines, the debug-level predicate and
the dict helper) are not part of the embedded source file; following the
specification they are treated as external collaborators: the engines are
abstract parameters satisfying the documented optimize contract, and the
remaining helpers are modelled from the specification's words (each such
definition says so in its doc comment).
-/

namespace DisoTPS

/-- Model of a numpy ndarray: a C-order (row-major) flat complex buffer
together with its shape.  Only the entries at flat positions below the
shape's product are meaningful. -/
structure NDArray where
  shape : List Nat
  data : Nat → ℂ

/-- Model of np.eye(N): the N × N identity matrix.  In the flat C-order
buffer, position p corresponds to row p / N and column p % N. -/
def np_eye (N : Nat) : NDArray :=
  ⟨[N, N], fun p => if p / N = p % N then 1 else 0⟩

/-- Model of ndarray.astype(np.complex128): entries of the model are
already complex numbers, so the dtype cast leaves the array unchanged. -/
def NDArray.astype_complex128 (A : NDArray) : NDArray := A

/-- Model of np.reshape on a contiguous C-order array: the flat buffer is
reinterpreted under a new shape; the data is unchanged. -/
def np_reshape (A : NDArray) (s : List Nat) : NDArray := ⟨s, A.data⟩

/-- Element access of a 4-dimensional array at multi-index (a, b, c, d),
via the C-order strides induced by the shape. -/
def NDArray.get4 (A : NDArray) (a b c d : Nat) : ℂ :=
  match A.shape with
  | [_, s1, s2, s3] => A.data (((a * s1 + b) * s2 + c) * s3 + d)
  | _ => 0

/-- Modelled from the spec: the iterate objects of
src.utility.disentangle.truncErrorIterate (module not under src/) couple a
candidate unitary U with theta, the truncation ranks and the
approximate-SVD hyperparameters.  The drivers only construct these objects
and hand them to the optimizer engines, so they are modelled as records of
their constructor arguments; a single dynamic type covers the three
classes, mirroring Python's dynamic typing.  The TruncErrorIterateCG
constructor defaults old_iterate to None when the argument is omitted (the
exact-CG call site passes old_iterate=None explicitly). -/
inductive Iterate where
  | truncErrorIterateCG (U : NDArray) (theta : NDArray) (chi : Nat)
      (chi_max : Option Nat) (N_iters_svd : Option Nat) (eps_svd : ℚ)
      (old_iterate : Option Iterate)
  | truncErrorIterateTRM (U : NDArray) (theta : NDArray) (chi : Nat)
  | truncErrorIterateApproxTRM (U : NDArray) (theta : NDArray) (chi : Nat)
      (chi_max : Nat) (N_iters_svd : Option Nat) (eps_svd : ℚ)
      (old_iterate : Option Iterate)

/-- Candidate unitary stored in an iterate (first constructor argument at
every call site). -/
def Iterate.U : Iterate → NDArray
  | .truncErrorIterateCG U _ _ _ _ _ _ => U
  | .truncErrorIterateTRM U _ _ => U
  | .truncErrorIterateApproxTRM U _ _ _ _ _ _ => U

/-- Previous iterate recorded in an iterate, when its class has that
constructor argument. -/
def Iterate.oldIterate? : Iterate → Option Iterate
  | .truncErrorIterateCG _ _ _ _ _ _ o => o
  | .truncErrorIterateTRM _ _ _ => none
  | .truncErrorIterateApproxTRM _ _ _ _ _ _ o => o

/-- Value of the chi_max constructor argument, when the iterate's class
has one. -/
def Iterate.chiMax? : Iterate → Option Nat
  | .truncErrorIterateCG _ _ _ cm _ _ _ => cm
  | .truncErrorIterateTRM _ _ _ => none
  | .truncErrorIterateApproxTRM _ _ _ cm _ _ _ => some cm

/-- Values stored in the debug dictionary: either a list of per-run
counters built by append_to_dict_list, or a per-iteration payload stored
verbatim from the optimizer engine's debug output. -/
inductive DebugValue (Info : Type) where
  | natList : List Nat → DebugValue Info
  | info : Info → DebugValue Info

/-- Modelled from the spec: the externally-owned debug record — a mapping
from named metric to value — together with the configured debug level that
check_debug_level reads (module src.utility.debug_levels is not under
src/).  The level is configuration; the entries are the logged metrics. -/
structure DebugDict (Info : Type) where
  level : Nat
  entries : List (String × DebugValue Info)

/-- Modelled from the spec: the two members of debug_levels.DebugLevel
used by the drivers; per-iteration logging is the stronger level. -/
inductive DebugLevel where
  | LOG_DISENTANGLER_TRIPARTITE_DECOMPOSITION_ITERATION_INFO
  | LOG_PER_ITERATION_DEBUG_INFO_DISENTANGLER_TRIPARTITE_DECOMPOSITION

/-- Numeric rank of a debug level. -/
def DebugLevel.toNat : DebugLevel → Nat
  | .LOG_DISENTANGLER_TRIPARTITE_DECOMPOSITION_ITERATION_INFO => 1
  | .LOG_PER_ITERATION_DEBUG_INFO_DISENTANGLER_TRIPARTITE_DECOMPOSITION => 2

/-- Modelled from the spec: the predicate
debug_levels.check_debug_level(debug_dict, level) gating whether summary
vs per-iteration diagnostics are recorded; with no debug dict (None)
nothing is enabled.  It reads only the configured level, never the logged
entries. -/
def check_debug_level {Info : Type} (debug_dict : Option (DebugDict Info))
    (lvl : DebugLevel) : Bool :=
  match debug_dict with
  | none => false
  | some d => decide (lvl.toNat ≤ d.level)

/-- Lookup of a key in the entry list of a debug dictionary (first match,
as in a Python dict where keys are unique). -/
def lookupKey {Info : Type} (l : List (String × DebugValue Info)) (k : String) :
    Option (DebugValue Info) :=
  match l with
  | [] => none
  | (k', v) :: t => if k' = k then some v else lookupKey t k

/-- Insertion or in-place replacement of a key in the entry list,
preserving insertion order as a Python dict does. -/
def setKey {Info : Type} (l : List (String × DebugValue Info)) (k : String)
    (v : DebugValue Info) : List (String × DebugValue Info) :=
  match l with
  | [] => [(k, v)]
  | (k', v') :: t => if k' = k then (k, v) :: t else (k', v') :: setKey t k v

/-- Store a value under a key in a debug dictionary (dict assignment). -/
def DebugDict.store {Info : Type} (d : DebugDict Info) (k : String)
    (v : DebugValue Info) : DebugDict Info :=
  ⟨d.level, setKey d.entries k v⟩

/-- Dict assignment lifted to an optional debug dictionary; assignment on
a missing dict is unreachable in the drivers (the gating predicates are
false for None) and is modelled as a no-op. -/
def dict_store {Info : Type} (dd : Option (DebugDict Info)) (k : String)
    (v : DebugValue Info) : Option (DebugDict Info) :=
  dd.map (fun d => d.store k v)

/-- Modelled from the spec: utility.append_to_dict_list(debug_dict, key,
value) (module src.utility.utility is not under src/) appends value to the
list stored at key, starting a fresh list when the key is absent. -/
def append_to_dict_list {Info : Type} (dd : Option (DebugDict Info)) (k : String)
    (n : Nat) : Option (DebugDict Info) :=
  dd.map (fun d =>
    d.store k (.natList (match lookupKey d.entries k with
      | some (.natList l) => l ++ [n]
      | _ => [n])))

/-- Lookup of a metric in an optional debug dictionary. -/
def lookupO {Info : Type} (dd : Option (DebugDict Info)) (k : String) :
    Option (DebugValue Info) :=
  match dd with
  | none => none
  | some d => lookupKey d.entries k

/-- Configured debug level of an optional debug dictionary. -/
def levelO {Info : Type} (dd : Option (DebugDict Info)) : Option Nat :=
  dd.map (fun d => d.level)

/-- Counter list currently stored at a key (empty when absent or when the
stored value is not a counter list). -/
def priorNats {Info : Type} (dd : Option (DebugDict Info)) (k : String) : List Nat :=
  match lookupO dd k with
  | some (.natList l) => l
  | _ => []

/-- Record of the constructor arguments of
stiefel_manifold.ComplexStiefelManifold(n, p, shape) (module not under
src/; the drivers only construct it and pass it to the engines). -/
structure ComplexStiefelManifold where
  n : Nat
  p : Nat
  shape : List Nat

/-- Type of the iterate-construction closures the drivers hand to the
optimizer engines: (candidate U, previous iterate-or-null) to new
iterate. -/
def ConstructIterate : Type := NDArray → Option Iterate → Iterate

/-- Abstract conjugate-gradients optimizer engine, per the spec's engine
contract: constructed from the manifold, the iterate-construction closure
and forwarded keyword configuration (type K), then
optimize(initial_iterate, log_debug_info) returns (final_iterate,
iteration_count, num_restarts_not_descent, num_restarts_powell,
debug_info) where debug_info carries (iterates, costs, step_sizes) of some
payload type Info. -/
def CGEngine (Info K : Type) : Type :=
  ComplexStiefelManifold → ConstructIterate → K → Iterate → Bool →
    Iterate × Nat × Nat × Nat × (Info × Info × Info)

/-- Abstract trust-region optimizer engine, per the spec's engine
contract: optimize(initial_iterate, log_debug_info, print_warnings)
returns (final_iterate, iteration_count, debug_info) where debug_info
carries (iterates, costs, deltas, tCG_iters). -/
def TRMEngine (Info K : Type) : Type :=
  ComplexStiefelManifold → ConstructIterate → K → Iterate → Bool → Bool →
    Iterate × Nat × (Info × Info × Info × Info)

/-- Python exceptions raised by the embedded code. -/
inductive PyError where
  | notImplementedError (msg : String)
  | valueError (msg : String)
deriving DecidableEq

/-- Error raised by the tuple unpacking of theta.shape when theta is not
4-dimensional. -/
def unpack_error : PyError :=
  .valueError "could not unpack theta.shape into (_, D1, D2, _)"

/-- Record of one completed conjugate-gradients driver call: the objects
the driver built and passed to the engine (instrumentation fields U0,
manifold, construct_iterate, initial_iterate, kwargs_to_engine,
log_debug_info), the engine's outputs, and final_iterate — the value the
source function returns. -/
structure CGCall (Info K : Type) where
  U0 : NDArray
  manifold : ComplexStiefelManifold
  construct_iterate : ConstructIterate
  initial_iterate : Iterate
  kwargs_to_engine : K
  log_debug_info : Bool
  final_iterate : Iterate
  n_iters : Nat
  num_restarts_not_descent : Nat
  num_restarts_powell : Nat
  debug_info : Info × Info × Info

/-- Record of one completed trust-region driver call, analogous to
CGCall. -/
structure TRMCall (Info K : Type) where
  U0 : NDArray
  manifold : ComplexStiefelManifold
  construct_iterate : ConstructIterate
  initial_iterate : Iterate
  kwargs_to_engine : K
  log_debug_info : Bool
  final_iterate : Iterate
  n_iters : Nat
  debug_info : Info × Info × Info × Info

/-- Successful driver result, tagged by the engine family used. -/
inductive DriverValue (Info K : Type) where
  | cg : CGCall Info K → DriverValue Info K
  | trm : TRMCall Info K → DriverValue Info K

/-- Observable outcome of a driver or dispatcher call: the returned value
(or the raised exception), the contents of theta after the call, and the
debug dictionary after the call. -/
structure Outcome (Info K : Type) where
  value : Except PyError (DriverValue Info K)
  theta_after : NDArray
  debug_dict_after : Option (DebugDict Info)

/-- U0 built by a successful driver call. -/
def Outcome.U0? {Info K : Type} : Outcome Info K → Option NDArray
  | ⟨.ok (.cg c), _, _⟩ => some c.U0
  | ⟨.ok (.trm c), _, _⟩ => some c.U0
  | _ => none

/-- Initial iterate a successful driver call handed to optimize. -/
def Outcome.initial_iterate? {Info K : Type} : Outcome Info K → Option Iterate
  | ⟨.ok (.cg c), _, _⟩ => some c.initial_iterate
  | ⟨.ok (.trm c), _, _⟩ => some c.initial_iterate
  | _ => none

/-- Iterate-construction closure a successful driver call handed to the
engine. -/
def Outcome.construct_iterate? {Info K : Type} : Outcome Info K → Option ConstructIterate
  | ⟨.ok (.cg c), _, _⟩ => some c.construct_iterate
  | ⟨.ok (.trm c), _, _⟩ => some c.construct_iterate
  | _ => none

/-- Iterate built by applying the driver's closure to a candidate U and a
previous iterate. -/
def Outcome.constructed {Info K : Type} (o : Outcome Info K) (U : NDArray)
    (prev : Option Iterate) : Option Iterate :=
  (o.construct_iterate?).map (fun f => f U prev)

/-- Value returned by the source driver (the final iterate of the
engine). -/
def Outcome.final_iterate? {Info K : Type} : Outcome Info K → Option Iterate
  | ⟨.ok (.cg c), _, _⟩ => some c.final_iterate
  | ⟨.ok (.trm c), _, _⟩ => some c.final_iterate
  | _ => none

/-- Keyword configuration a successful driver call forwarded to the
engine constructor. -/
def Outcome.kwargs_to_engine? {Info K : Type} : Outcome Info K → Option K
  | ⟨.ok (.cg c), _, _⟩ => some c.kwargs_to_engine
  | ⟨.ok (.trm c), _, _⟩ => some c.kwargs_to_engine
  | _ => none

/-- Debug writes of the CG drivers (src lines 40-47): under the
iteration-info level the three per-run counters are appended; under the
per-iteration flag the three per-iteration keys are assigned. -/
def cg_write_debug {Info : Type} (debug_dict : Option (DebugDict Info))
    (n num_restarts_not_descent num_restarts_powell : Nat)
    (debug_info : Info × Info × Info) (log_debug_info : Bool) :
    Option (DebugDict Info) :=
  let dd1 :=
    if check_debug_level debug_dict .LOG_DISENTANGLER_TRIPARTITE_DECOMPOSITION_ITERATION_INFO then
      append_to_dict_list
        (append_to_dict_list
          (append_to_dict_list debug_dict "N_iters_disentangler" n)
          "disentangler_num_restarts_not_descent" num_restarts_not_descent)
        "disentangler_num_restarts_powell" num_restarts_powell
    else debug_dict
  if log_debug_info then
    dict_store
      (dict_store
        (dict_store dd1 "disentangler_iterates" (.info debug_info.1))
        "disentangler_costs" (.info debug_info.2.1))
      "disentangler_step_sizes" (.info debug_info.2.2)
  else dd1

/-- Debug writes of the TRM drivers (src lines 131-137 and 188-194):
under the iteration-info level the iteration counter is appended; under
the per-iteration flag the four per-iteration keys are assigned. -/
def trm_write_debug {Info : Type} (debug_dict : Option (DebugDict Info))
    (n : Nat) (debug_info : Info × Info × Info × Info) (log_debug_info : Bool) :
    Option (DebugDict Info) :=
  let dd1 :=
    if check_debug_level debug_dict .LOG_DISENTANGLER_TRIPARTITE_DECOMPOSITION_ITERATION_INFO then
      append_to_dict_list debug_dict "N_iters_disentangler" n
    else debug_dict
  if log_debug_info then
    dict_store
      (dict_store
        (dict_store
          (dict_store dd1 "disentangler_iterates" (.info debug_info.1))
          "disentangler_costs" (.info debug_info.2.1))
        "disentangler_deltas" (.info debug_info.2.2.1))
      "disentangler_tCG_iters" (.info debug_info.2.2.2)
  else dd1

/-- Embedding of disentangle_CG (src lines 9-48).  The optimizer engine
(conjugate_gradients.ConjugateGradientsOptimizer, not under src/) is an
abstract parameter; constructing the optimizer and calling optimize is
modelled as applying the engine to the manifold, the closure, the
forwarded kwargs, the initial iterate and the log flag.  The Outcome
additionally records, as instrumentation, the objects the driver built
and passed to the engine. -/
def disentangle_CG_run {Info K : Type} (optimizer : CGEngine Info K)
    (theta : NDArray) (chi : Nat) (debug_dict : Option (DebugDict Info))
    (kwargs : K) : Outcome Info K :=
  match theta.shape with
  | [_l, D1, D2, _r] =>
      let U0 := np_reshape (np_eye (D1 * D2)).astype_complex128 [D1, D2, D1, D2]
      let construct_new_iterate : ConstructIterate :=
        fun U _ => .truncErrorIterateCG U theta chi none none 0 none
      let manifold : ComplexStiefelManifold := ⟨D1 * D2, D1 * D2, U0.shape⟩
      let log_debug_info := check_debug_level debug_dict
        .LOG_PER_ITERATION_DEBUG_INFO_DISENTANGLER_TRIPARTITE_DECOMPOSITION
      let res := optimizer manifold construct_new_iterate kwargs
        (construct_new_iterate U0 none) log_debug_info
      let iterate := res.1
      let n := res.2.1
      let num_restarts_not_descent := res.2.2.1
      let num_restarts_powell := res.2.2.2.1
      let debug_info := res.2.2.2.2
      ⟨.ok (.cg ⟨U0, manifold, construct_new_iterate, construct_new_iterate U0 none,
          kwargs, log_debug_info, iterate, n, num_restarts_not_descent,
          num_restarts_powell, debug_info⟩),
        theta,
        cg_write_debug debug_dict n num_restarts_not_descent num_restarts_powell
          debug_info log_debug_info⟩
  | _ => ⟨.error unpack_error, theta, debug_dict⟩

/-- Embedding of disentangle_approx_CG (src lines 50-98).  The closure at
src line 85 omits the old_iterate argument of TruncErrorIterateCG, which
therefore takes its default None; the initial iterate at src line 89 is
built directly with N_iters_svd_initial and old_iterate=None. -/
def disentangle_approx_CG_run {Info K : Type} (optimizer : CGEngine Info K)
    (theta : NDArray) (chi : Nat) (N_iters_svd : Option Nat) (eps_svd : ℚ)
    (N_iters_svd_initial : Option Nat) (debug_dict : Option (DebugDict Info))
    (kwargs : K) : Outcome Info K :=
  match theta.shape with
  | [_l, D1, D2, _r] =>
      let U0 := np_reshape (np_eye (D1 * D2)).astype_complex128 [D1, D2, D1, D2]
      let construct_new_iterate : ConstructIterate :=
        fun U _old_iterate => .truncErrorIterateCG U theta chi none N_iters_svd eps_svd none
      let manifold : ComplexStiefelManifold := ⟨D1 * D2, D1 * D2, U0.shape⟩
      let log_debug_info := check_debug_level debug_dict
        .LOG_PER_ITERATION_DEBUG_INFO_DISENTANGLER_TRIPARTITE_DECOMPOSITION
      let res := optimizer manifold construct_new_iterate kwargs
        (.truncErrorIterateCG U0 theta chi none N_iters_svd_initial eps_svd none)
        log_debug_info
      let iterate := res.1
      let n := res.2.1
      let num_restarts_not_descent := res.2.2.1
      let num_restarts_powell := res.2.2.2.1
      let debug_info := res.2.2.2.2
      ⟨.ok (.cg ⟨U0, manifold, construct_new_iterate,
          .truncErrorIterateCG U0 theta chi none N_iters_svd_initial eps_svd none,
          kwargs, log_debug_info, iterate, n, num_restarts_not_descent,
          num_restarts_powell, debug_info⟩),
        theta,
        cg_write_debug debug_dict n num_restarts_not_descent num_restarts_powell
          debug_info log_debug_info⟩
  | _ => ⟨.error unpack_error, theta, debug_dict⟩

/-- Embedding of disentangle_TRM (src lines 100-138).  The engine
(trust_region_method.TrustRegionOptimizer, not under src/) is an abstract
parameter; optimize receives print_warnings=False (the trailing Bool). -/
def disentangle_TRM_run {Info K : Type} (optimizer : TRMEngine Info K)
    (theta : NDArray) (chi : Nat) (debug_dict : Option (DebugDict Info))
    (kwargs : K) : Outcome Info K :=
  match theta.shape with
  | [_l, D1, D2, _r] =>
      let U0 := np_reshape (np_eye (D1 * D2)).astype_complex128 [D1, D2, D1, D2]
      let construct_new_iterate : ConstructIterate :=
        fun U _ => .truncErrorIterateTRM U theta chi
      let manifold : ComplexStiefelManifold := ⟨D1 * D2, D1 * D2, U0.shape⟩
      let log_debug_info := check_debug_level debug_dict
        .LOG_PER_ITERATION_DEBUG_INFO_DISENTANGLER_TRIPARTITE_DECOMPOSITION
      let res := optimizer manifold construct_new_iterate kwargs
        (construct_new_iterate U0 none) log_debug_info false
      let iterate := res.1
      let n := res.2.1
      let debug_info := res.2.2
      ⟨.ok (.trm ⟨U0, manifold, construct_new_iterate, construct_new_iterate U0 none,
          kwargs, log_debug_info, iterate, n, debug_info⟩),
        theta,
        trm_write_debug debug_dict n debug_info log_debug_info⟩
  | _ => ⟨.error unpack_error, theta, debug_dict⟩

/-- Embedding of disentangle_approx_TRM (src lines 140-195).  chi_max is
defaulted to chi when None (src lines 177-178) before anything else; the
closure at src line 183 forwards old_iterate into
TruncErrorIterateApproxTRM; the initial iterate at src line 187 uses
N_iters_svd_initial and old_iterate=None. -/
def disentangle_approx_TRM_run {Info K : Type} (optimizer : TRMEngine Info K)
    (theta : NDArray) (chi : Nat) (chi_max : Option Nat) (N_iters_svd : Option Nat)
    (eps_svd : ℚ) (N_iters_svd_initial : Option Nat)
    (debug_dict : Option (DebugDict Info)) (kwargs : K) : Outcome Info K :=
  let chi_max' : Nat := chi_max.getD chi
  match theta.shape with
  | [_l, D1, D2, _r] =>
      let U0 := np_reshape (np_eye (D1 * D2)).astype_complex128 [D1, D2, D1, D2]
      let construct_new_iterate : ConstructIterate :=
        fun U old_iterate =>
          .truncErrorIterateApproxTRM U theta chi chi_max' N_iters_svd eps_svd old_iterate
      let manifold : ComplexStiefelManifold := ⟨D1 * D2, D1 * D2, U0.shape⟩
      let log_debug_info := check_debug_level debug_dict
        .LOG_PER_ITERATION_DEBUG_INFO_DISENTANGLER_TRIPARTITE_DECOMPOSITION
      let res := optimizer manifold construct_new_iterate kwargs
        (.truncErrorIterateApproxTRM U0 theta chi chi_max' N_iters_svd_initial eps_svd none)
        log_debug_info false
      let iterate := res.1
      let n := res.2.1
      let debug_info := res.2.2
      ⟨.ok (.trm ⟨U0, manifold, construct_new_iterate,
          .truncErrorIterateApproxTRM U0 theta chi chi_max' N_iters_svd_initial eps_svd none,
          kwargs, log_debug_info, iterate, n, debug_info⟩),
        theta,
        trm_write_debug debug_dict n debug_info log_debug_info⟩
  | _ => ⟨.error unpack_error, theta, debug_dict⟩

/-- Default of the method parameter of disentangle (src line 197). -/
def disentangle_default_method : String := "trm"

/-- Default of the method parameter of disentangle_approx (src line
227). -/
def disentangle_approx_default_method : String := "cg"

/-- Default of N_iters_svd in disentangle_approx_CG (src line 50). -/
def disentangle_approx_CG_default_N_iters_svd : Option Nat := some 5

/-- Default of eps_svd in disentangle_approx_CG (src line 50). -/
def disentangle_approx_CG_default_eps_svd : ℚ := 0

/-- Default of N_iters_svd_initial in disentangle_approx_CG (src line
50). -/
def disentangle_approx_CG_default_N_iters_svd_initial : Option Nat := some 50

/-- Default of chi_max in disentangle_approx_TRM (src line 140). -/
def disentangle_approx_TRM_default_chi_max : Option Nat := none

/-- Default of N_iters_svd in disentangle_approx_TRM (src line 140). -/
def disentangle_approx_TRM_default_N_iters_svd : Option Nat := some 2

/-- Default of eps_svd in disentangle_approx_TRM (src line 140). -/
def disentangle_approx_TRM_default_eps_svd : ℚ := 0

/-- Default of N_iters_svd_initial in disentangle_approx_TRM (src line
140). -/
def disentangle_approx_TRM_default_N_iters_svd_initial : Option Nat := some 50

/-- Embedding of the dispatcher disentangle (src lines 197-225): routes
to the TRM or CG exact driver, forwarding chi, debug_dict and kwargs, and
raises NotImplementedError for any other method string. -/
def disentangle {Info K : Type} (trm_optimizer : TRMEngine Info K)
    (cg_optimizer : CGEngine Info K) (theta : NDArray) (chi : Nat)
    (method : String) (debug_dict : Option (DebugDict Info)) (kwargs : K) :
    Outcome Info K :=
  if method = "trm" then
    disentangle_TRM_run trm_optimizer theta chi debug_dict kwargs
  else if method = "cg" then
    disentangle_CG_run cg_optimizer theta chi debug_dict kwargs
  else
    ⟨.error (.notImplementedError ("disentangling method \"" ++ method ++
        "\" is not implemented for truncation error disentangling!")),
      theta, debug_dict⟩

/-- Embedding of the dispatcher disentangle_approx (src lines 227-256):
routes to the approximate TRM or CG driver — whose tuning parameters take
their signature defaults, the dispatcher having no such parameters — and
raises NotImplementedError for any other method string. -/
def disentangle_approx {Info K : Type} (trm_optimizer : TRMEngine Info K)
    (cg_optimizer : CGEngine Info K) (theta : NDArray) (chi : Nat)
    (method : String) (debug_dict : Option (DebugDict Info)) (kwargs : K) :
    Outcome Info K :=
  if method = "trm" then
    disentangle_approx_TRM_run trm_optimizer theta chi
      disentangle_approx_TRM_default_chi_max
      disentangle_approx_TRM_default_N_iters_svd
      disentangle_approx_TRM_default_eps_svd
      disentangle_approx_TRM_default_N_iters_svd_initial
      debug_dict kwargs
  else if method = "cg" then
    disentangle_approx_CG_run cg_optimizer theta chi
      disentangle_approx_CG_default_N_iters_svd
      disentangle_approx_CG_default_eps_svd
      disentangle_approx_CG_default_N_iters_svd_initial
      debug_dict kwargs
  else
    ⟨.error (.notImplementedError ("disentangling method \"" ++ method ++
        "\" is not implemented for approximate truncation error disentangling!")),
      theta, debug_dict⟩

/-! Concrete fixtures used by witnesses and counterexamples. -/

/-- Concrete wavefunction tensor fixture of shape (1, 2, 2, 1). -/
def theta0 : NDArray := ⟨[1, 2, 2, 1], fun _ => 0⟩

/-- Concrete 2-dimensional array fixture (not a valid theta). -/
def theta2d : NDArray := ⟨[2, 2], fun _ => 0⟩

/-- Concrete CG engine fixture: returns its initial iterate after 7
iterations with 1 and 2 restarts and zero debug payloads. -/
def cgEngine0 : CGEngine Nat Unit := fun _ _ _ init _ => (init, 7, 1, 2, (0, 0, 0))

/-- Concrete TRM engine fixture: returns its initial iterate after 5
iterations with zero debug payloads. -/
def trmEngine0 : TRMEngine Nat Unit := fun _ _ _ init _ _ => (init, 5, (0, 0, 0, 0))

/-- Concrete debug dictionary fixture: level 0 (nothing enabled), one
unrelated entry. -/
def dd0 : Option (DebugDict Nat) := some ⟨0, [("unrelated", .natList [3])]⟩

/-! Claim theorems. -/

/-- C3: for every method string outside {"trm", "cg"}, both dispatchers
raise an unsupported-method NotImplementedError, leave the debug
dictionary (and theta) unchanged, and return no partial result. -/
theorem claim_C3_unknown_method_errors {Info K : Type} (eT : TRMEngine Info K)
    (eC : CGEngine Info K) (theta : NDArray) (chi : Nat) (method : String)
    (dd : Option (DebugDict Info)) (kwargs : K)
    (h1 : method ≠ "trm") (h2 : method ≠ "cg") :
    disentangle eT eC theta chi method dd kwargs =
      ⟨.error (.notImplementedError ("disentangling method \"" ++ method ++
          "\" is not implemented for truncation error disentangling!")), theta, dd⟩
    ∧ disentangle_approx eT eC theta chi method dd kwargs =
      ⟨.error (.notImplementedError ("disentangling method \"" ++ method ++
          "\" is not implemented for approximate truncation error disentangling!")),
        theta, dd⟩ := by
  constructor
  · unfold disentangle
    rw [if_neg h1, if_neg h2]
  · unfold disentangle_approx
    rw [if_neg h1, if_neg h2]

/-- Witness for C3 at the concrete method string "bogus". -/
theorem claim_C3_unknown_method_errors_witness :
    disentangle trmEngine0 cgEngine0 theta0 2 "bogus" dd0 () =
      ⟨.error (.notImplementedError ("disentangling method \"" ++ "bogus" ++
          "\" is not implemented for truncation error disentangling!")), theta0, dd0⟩
    ∧ disentangle_approx trmEngine0 cgEngine0 theta0 2 "bogus" dd0 () =
      ⟨.error (.notImplementedError ("disentangling method \"" ++ "bogus" ++
          "\" is not implemented for approximate truncation error disentangling!")),
        theta0, dd0⟩ :=
  claim_C3_unknown_method_errors trmEngine0 cgEngine0 theta0 2 "bogus" dd0 ()
    (by decide) (by decide)

/-- C4: disentangle with method "trm" (the signature default) returns
exactly the result of disentangle_TRM and with "cg" exactly that of
disentangle_CG; disentangle_approx with method "cg" (the signature
default) returns exactly the result of disentangle_approx_CG and with
"trm" exactly that of disentangle_approx_TRM, the drivers' tuning
parameters taking their signature defaults. -/
theorem claim_C4_dispatch_routes_exactly {Info K : Type} (eT : TRMEngine Info K)
    (eC : CGEngine Info K) (theta : NDArray) (chi : Nat)
    (dd : Option (DebugDict Info)) (kwargs : K) :
    disentangle eT eC theta chi "trm" dd kwargs =
      disentangle_TRM_run eT theta chi dd kwargs
  ∧ disentangle eT eC theta chi "cg" dd kwargs =
      disentangle_CG_run eC theta chi dd kwargs
  ∧ disentangle_default_method = "trm"
  ∧ disentangle_approx eT eC theta chi "cg" dd kwargs =
      disentangle_approx_CG_run eC theta chi
        disentangle_approx_CG_default_N_iters_svd
        disentangle_approx_CG_default_eps_svd
        disentangle_approx_CG_default_N_iters_svd_initial dd kwargs
  ∧ disentangle_approx eT eC theta chi "trm" dd kwargs =
      disentangle_approx_TRM_run eT theta chi
        disentangle_approx_TRM_default_chi_max
        disentangle_approx_TRM_default_N_iters_svd
        disentangle_approx_TRM_default_eps_svd
        disentangle_approx_TRM_default_N_iters_svd_initial dd kwargs
  ∧ disentangle_approx_default_method = "cg" := by
  refine ⟨?_, ?_, rfl, ?_, ?_, rfl⟩
  · unfold disentangle
    rw [if_pos rfl]
  · unfold disentangle
    rw [if_neg (by decide), if_pos rfl]
  · unfold disentangle_approx
    rw [if_neg (by decide), if_pos rfl]
  · unfold disentangle_approx
    rw [if_pos rfl]

/-- C9: every driver requires theta to be exactly 4-dimensional; for any
array whose shape does not have exactly four components the call fails
with the unpack error, independently of the engine, with theta and the
debug dictionary untouched. -/
theorem claim_C9_drivers_require_4d_theta {Info K : Type} (eC : CGEngine Info K)
    (eT : TRMEngine Info K) (theta : NDArray) (chi : Nat) (Ns : Option Nat)
    (eps : ℚ) (Ni : Option Nat) (cm : Option Nat)
    (dd : Option (DebugDict Info)) (kwargs : K)
    (h : theta.shape.length ≠ 4) :
    disentangle_CG_run eC theta chi dd kwargs = ⟨.error unpack_error, theta, dd⟩
  ∧ disentangle_approx_CG_run eC theta chi Ns eps Ni dd kwargs =
      ⟨.error unpack_error, theta, dd⟩
  ∧ disentangle_TRM_run eT theta chi dd kwargs = ⟨.error unpack_error, theta, dd⟩
  ∧ disentangle_approx_TRM_run eT theta chi cm Ns eps Ni dd kwargs =
      ⟨.error unpack_error, theta, dd⟩ := by
  have hx : ∀ l D1 D2 r : Nat, theta.shape ≠ [l, D1, D2, r] := by
    intro l D1 D2 r hEq
    apply h
    rw [hEq]
    rfl
  refine ⟨?_, ?_, ?_, ?_⟩
  · unfold disentangle_CG_run
    split
    next l D1 D2 r heq => exact absurd heq (hx l D1 D2 r)
    next => rfl
  · unfold disentangle_approx_CG_run
    split
    next l D1 D2 r heq => exact absurd heq (hx l D1 D2 r)
    next => rfl
  · unfold disentangle_TRM_run
    split
    next l D1 D2 r heq => exact absurd heq (hx l D1 D2 r)
    next => rfl
  · unfold disentangle_approx_TRM_run
    split
    next l D1 D2 r heq => exact absurd heq (hx l D1 D2 r)
    next => rfl

/-- Witness for C9 at a concrete 2-dimensional array. -/
theorem claim_C9_drivers_require_4d_theta_witness :
    disentangle_CG_run cgEngine0 theta2d 2 dd0 () =
      ⟨.error unpack_error, theta2d, dd0⟩ :=
  (claim_C9_drivers_require_4d_theta cgEngine0 trmEngine0 theta2d 2 (some 5) 0
    (some 50) none dd0 () (by decide)).1

/-- C7: every driver and dispatcher leaves the input tensor theta
unchanged, for any engines, method string and configuration. -/
theorem claim_C7_theta_never_mutated {Info K : Type} (eT : TRMEngine Info K)
    (eC : CGEngine Info K) (theta : NDArray) (chi : Nat) (method : String)
    (Ns : Option Nat) (eps : ℚ) (Ni : Option Nat) (cm : Option Nat)
    (dd : Option (DebugDict Info)) (kwargs : K) :
    (disentangle_CG_run eC theta chi dd kwargs).theta_after = theta
  ∧ (disentangle_approx_CG_run eC theta chi Ns eps Ni dd kwargs).theta_after = theta
  ∧ (disentangle_TRM_run eT theta chi dd kwargs).theta_after = theta
  ∧ (disentangle_approx_TRM_run eT theta chi cm Ns eps Ni dd kwargs).theta_after = theta
  ∧ (disentangle eT eC theta chi method dd kwargs).theta_after = theta
  ∧ (disentangle_approx eT eC theta chi method dd kwargs).theta_after = theta := by
  have h1 : (disentangle_CG_run eC theta chi dd kwargs).theta_after = theta := by
    unfold disentangle_CG_run
    split <;> rfl
  have h2 : ∀ a b c, (disentangle_approx_CG_run eC theta chi a b c dd kwargs).theta_after
      = theta := by
    intro a b c
    unfold disentangle_approx_CG_run
    split <;> rfl
  have h3 : (disentangle_TRM_run eT theta chi dd kwargs).theta_after = theta := by
    unfold disentangle_TRM_run
    split <;> rfl
  have h4 : ∀ a b c d, (disentangle_approx_TRM_run eT theta chi a b c d dd
      kwargs).theta_after = theta := by
    intro a b c d
    unfold disentangle_approx_TRM_run
    split <;> rfl
  refine ⟨h1, h2 Ns eps Ni, h3, h4 cm Ns eps Ni, ?_, ?_⟩
  · unfold disentangle
    by_cases ht : method = "trm"
    · rw [if_pos ht]
      exact h3
    · rw [if_neg ht]
      by_cases hc : method = "cg"
      · rw [if_pos hc]
        exact h1
      · rw [if_neg hc]
  · unfold disentangle_approx
    by_cases ht : method = "trm"
    · rw [if_pos ht]
      exact h4 _ _ _ _
    · rw [if_neg ht]
      by_cases hc : method = "cg"
      · rw [if_pos hc]
        exact h2 _ _ _
      · rw [if_neg hc]

/-- Initial unitary built by every driver for physical dimensions D1, D2:
the (D1*D2) x (D1*D2) complex identity reshaped to (D1, D2, D1, D2)
(src lines 33, 83, 124, 181). -/
def initial_unitary (D1 D2 : Nat) : NDArray :=
  np_reshape (np_eye (D1 * D2)).astype_complex128 [D1, D2, D1, D2]

/-- Entry characterization of the reshaped identity: within bounds it is
the Kronecker delta pairing index (a, b) with index (c, d). -/
theorem initial_unitary_entry (D1 D2 a b c d : Nat) (_ha : a < D1) (hb : b < D2)
    (hc : c < D1) (hd : d < D2) :
    (initial_unitary D1 D2).get4 a b c d = if a = c ∧ b = d then 1 else 0 := by
  have hred : (initial_unitary D1 D2).get4 a b c d
      = if (((a * D2 + b) * D1 + c) * D2 + d) / (D1 * D2)
          = (((a * D2 + b) * D1 + c) * D2 + d) % (D1 * D2) then 1 else 0 := rfl
  have hpos : 0 < D1 * D2 := Nat.mul_pos (Nat.pos_of_ne_zero (by omega))
    (Nat.pos_of_ne_zero (by omega))
  have hrem : c * D2 + d < D1 * D2 := by
    have h1 : c * D2 + d < (c + 1) * D2 := by
      have : (c + 1) * D2 = c * D2 + D2 := by ring
      omega
    have h2 : (c + 1) * D2 ≤ D1 * D2 := Nat.mul_le_mul_right D2 (by omega)
    omega
  have hp : ((a * D2 + b) * D1 + c) * D2 + d
      = (c * D2 + d) + (a * D2 + b) * (D1 * D2) := by ring
  have hdiv : (((a * D2 + b) * D1 + c) * D2 + d) / (D1 * D2) = a * D2 + b := by
    rw [hp, Nat.add_mul_div_right _ _ hpos, Nat.div_eq_of_lt hrem, Nat.zero_add]
  have hmod : (((a * D2 + b) * D1 + c) * D2 + d) % (D1 * D2) = c * D2 + d := by
    rw [hp, Nat.add_mul_mod_self_right, Nat.mod_eq_of_lt hrem]
  have hiff : (a * D2 + b = c * D2 + d) ↔ (a = c ∧ b = d) := by
    constructor
    · intro hEq
      rw [Nat.mul_comm a D2, Nat.mul_comm c D2] at hEq
      have hac : a = c := by
        have h1 : (D2 * a + b) / D2 = a := by
          rw [Nat.mul_add_div (by omega), Nat.div_eq_of_lt hb, Nat.add_zero]
        have h2 : (D2 * c + d) / D2 = c := by
          rw [Nat.mul_add_div (by omega), Nat.div_eq_of_lt hd, Nat.add_zero]
        rw [← h1, ← h2, hEq]
      refine ⟨hac, ?_⟩
      rw [hac] at hEq
      omega
    · intro hEq
      rw [hEq.1, hEq.2]
  rw [hred, hdiv, hmod]
  by_cases hcase : a = c ∧ b = d
  · rw [if_pos (hiff.mpr hcase), if_pos hcase]
  · rw [if_neg (fun hh => hcase (hiff.mp hh)), if_neg hcase]

/-- C5: every driver builds U0 as the reshaped identity and starts the
optimization from the iterate constructed at this U0; the reshaped
identity has shape (D1, D2, D1, D2) and delta entries. -/
theorem claim_C5_identity_initialization {Info K : Type} (eC : CGEngine Info K)
    (eT : TRMEngine Info K) (theta : NDArray) (chi : Nat) (Ns : Option Nat)
    (eps : ℚ) (Ni : Option Nat) (cm : Option Nat) (dd : Option (DebugDict Info))
    (kwargs : K) (l D1 D2 r : Nat) (hshape : theta.shape = [l, D1, D2, r]) :
    (disentangle_CG_run eC theta chi dd kwargs).U0? = some (initial_unitary D1 D2)
  ∧ (disentangle_CG_run eC theta chi dd kwargs).initial_iterate?.map Iterate.U
      = some (initial_unitary D1 D2)
  ∧ (disentangle_approx_CG_run eC theta chi Ns eps Ni dd kwargs).U0?
      = some (initial_unitary D1 D2)
  ∧ (disentangle_approx_CG_run eC theta chi Ns eps Ni dd kwargs).initial_iterate?.map
      Iterate.U = some (initial_unitary D1 D2)
  ∧ (disentangle_TRM_run eT theta chi dd kwargs).U0? = some (initial_unitary D1 D2)
  ∧ (disentangle_TRM_run eT theta chi dd kwargs).initial_iterate?.map Iterate.U
      = some (initial_unitary D1 D2)
  ∧ (disentangle_approx_TRM_run eT theta chi cm Ns eps Ni dd kwargs).U0?
      = some (initial_unitary D1 D2)
  ∧ (disentangle_approx_TRM_run eT theta chi cm Ns eps Ni dd kwargs).initial_iterate?.map
      Iterate.U = some (initial_unitary D1 D2)
  ∧ (initial_unitary D1 D2).shape = [D1, D2, D1, D2]
  ∧ ∀ a b c d : Nat, a < D1 → b < D2 → c < D1 → d < D2 →
      (initial_unitary D1 D2).get4 a b c d = if a = c ∧ b = d then 1 else 0 := by
  refine ⟨?_, ?_, ?_, ?_, ?_, ?_, ?_, ?_, rfl, ?_⟩
  · unfold disentangle_CG_run
    rw [hshape]
    rfl
  · unfold disentangle_CG_run
    rw [hshape]
    rfl
  · unfold disentangle_approx_CG_run
    rw [hshape]
    rfl
  · unfold disentangle_approx_CG_run
    rw [hshape]
    rfl
  · unfold disentangle_TRM_run
    rw [hshape]
    rfl
  · unfold disentangle_TRM_run
    rw [hshape]
    rfl
  · unfold disentangle_approx_TRM_run
    rw [hshape]
    rfl
  · unfold disentangle_approx_TRM_run
    rw [hshape]
    rfl
  · intro a b c d ha hb hc hd
    exact initial_unitary_entry D1 D2 a b c d ha hb hc hd

/-- Witness for C5 at the concrete tensor of shape (1, 2, 2, 1): the CG
driver's U0 is the reshaped 4 x 4 identity, whose entry at (0, 1, 0, 1)
is 1. -/
theorem claim_C5_identity_initialization_witness :
    (disentangle_CG_run cgEngine0 theta0 2 dd0 ()).U0? = some (initial_unitary 2 2)
    ∧ (initial_unitary 2 2).get4 0 1 0 1 = 1 := by
  have h := claim_C5_identity_initialization cgEngine0 trmEngine0 theta0 2 (some 5) 0
    (some 50) none dd0 () 1 2 2 1 rfl
  refine ⟨h.1, ?_⟩
  have h2 := h.2.2.2.2.2.2.2.2.2 0 1 0 1 (by decide) (by decide) (by decide) (by decide)
  simpa using h2

/-- C6: in disentangle_approx_TRM with chi_max unset (None), both the
initial iterate and every iterate built by the closure during the run
carry chi_max = chi. -/
theorem claim_C6_chi_max_defaults_to_chi {Info K : Type} (eT : TRMEngine Info K)
    (theta : NDArray) (chi : Nat) (Ns : Option Nat) (eps : ℚ) (Ni : Option Nat)
    (dd : Option (DebugDict Info)) (kwargs : K) (l D1 D2 r : Nat)
    (hshape : theta.shape = [l, D1, D2, r]) :
    (disentangle_approx_TRM_run eT theta chi none Ns eps Ni dd kwargs).initial_iterate?.map
        Iterate.chiMax? = some (some chi)
  ∧ ∀ U prev, ((disentangle_approx_TRM_run eT theta chi none Ns eps Ni dd
        kwargs).constructed U prev).map Iterate.chiMax? = some (some chi) := by
  constructor
  · unfold disentangle_approx_TRM_run
    rw [hshape]
    rfl
  · intro U prev
    unfold disentangle_approx_TRM_run Outcome.constructed
    rw [hshape]
    rfl

/-- Witness for C6 at the concrete tensor of shape (1, 2, 2, 1). -/
theorem claim_C6_chi_max_defaults_to_chi_witness :
    (disentangle_approx_TRM_run trmEngine0 theta0 2 none (some 2) 0 (some 50) dd0
        ()).initial_iterate?.map Iterate.chiMax? = some (some 2) :=
  (claim_C6_chi_max_defaults_to_chi trmEngine0 theta0 2 (some 2) 0 (some 50) dd0 ()
    1 2 2 1 rfl).1

/-- Probe iterate supplied as "previous iterate" in the C2
counterexample. -/
def probeIterate : Iterate := .truncErrorIterateTRM theta0 theta0 1

/-- C2 counterexample: in disentangle_approx_CG the closure handed to the
optimizer does not pass the previous iterate into the new iterate's
construction: at a concrete input, with a previous iterate supplied, the
constructed iterate records old_iterate = None. -/
theorem claim_C2_counterexample :
    ((disentangle_approx_CG_run cgEngine0 theta0 2 (some 5) 0 (some 50) none
        ()).constructed theta0 (some probeIterate)).map Iterate.oldIterate?
      ≠ some (some probeIterate) := by
  intro hc
  have h : ((disentangle_approx_CG_run cgEngine0 theta0 2 (some 5) 0 (some 50) none
      ()).constructed theta0 (some probeIterate)).map Iterate.oldIterate?
      = some none := rfl
  rw [h] at hc
  exact Option.noConfusion (Option.some.inj hc)

/-- C2 amended: only the closure of disentangle_approx_TRM passes the
previous iterate into the new iterate's construction; the closure of
disentangle_approx_CG accepts the previous iterate but constructs the new
iterate with old_iterate = None, so approximate-SVD warm-starting during
optimization is enabled only in the TRM variant. -/
theorem claim_C2_amended_warm_start {Info K : Type} (eC : CGEngine Info K)
    (eT : TRMEngine Info K) (theta : NDArray) (chi : Nat) (cm : Option Nat)
    (Ns : Option Nat) (eps : ℚ) (Ni : Option Nat) (dd : Option (DebugDict Info))
    (kwargs : K) (l D1 D2 r : Nat) (hshape : theta.shape = [l, D1, D2, r]) :
    (∀ U prev, ((disentangle_approx_TRM_run eT theta chi cm Ns eps Ni dd
        kwargs).constructed U prev).map Iterate.oldIterate? = some prev)
  ∧ (∀ U prev, ((disentangle_approx_CG_run eC theta chi Ns eps Ni dd
        kwargs).constructed U prev).map Iterate.oldIterate? = some none) := by
  constructor
  · intro U prev
    unfold disentangle_approx_TRM_run Outcome.constructed
    rw [hshape]
    rfl
  · intro U prev
    unfold disentangle_approx_CG_run Outcome.constructed
    rw [hshape]
    rfl

/-- Witness for the amended C2 at a concrete input: the approximate TRM
closure forwards the supplied previous iterate. -/
theorem claim_C2_amended_warm_start_witness :
    ((disentangle_approx_TRM_run trmEngine0 theta0 2 none (some 2) 0 (some 50) none
        ()).constructed theta0 (some probeIterate)).map Iterate.oldIterate?
      = some (some probeIterate) :=
  (claim_C2_amended_warm_start cgEngine0 trmEngine0 theta0 2 none (some 2) 0 (some 50)
    none () 1 2 2 1 rfl).1 theta0 (some probeIterate)

/-- Concrete TRM engine fixture with Nat keyword configuration. -/
def trmEngineNatK : TRMEngine Nat Nat := fun _ _ _ init _ _ => (init, 5, (0, 0, 0, 0))

/-- C10: disentangle_approx_TRM forwards its keyword configuration
verbatim to the TrustRegionOptimizer constructor, and neither the
iterate-construction closure nor the initial iterate depends on that
configuration — so a renyi_alpha keyword argument, which the signature
does not name, is swallowed by kwargs and can never influence iterate
construction. -/
theorem claim_C10_kwargs_forwarded_not_into_iterates {Info K : Type}
    (eT : TRMEngine Info K) (theta : NDArray) (chi : Nat) (cm : Option Nat)
    (Ns : Option Nat) (eps : ℚ) (Ni : Option Nat) (dd : Option (DebugDict Info))
    (k1 k2 : K) (l D1 D2 r : Nat) (hshape : theta.shape = [l, D1, D2, r]) :
    (disentangle_approx_TRM_run eT theta chi cm Ns eps Ni dd k1).kwargs_to_engine?
      = some k1
  ∧ (disentangle_approx_TRM_run eT theta chi cm Ns eps Ni dd k1).construct_iterate?
      = (disentangle_approx_TRM_run eT theta chi cm Ns eps Ni dd k2).construct_iterate?
  ∧ (disentangle_approx_TRM_run eT theta chi cm Ns eps Ni dd k1).initial_iterate?
      = (disentangle_approx_TRM_run eT theta chi cm Ns eps Ni dd k2).initial_iterate? := by
  refine ⟨?_, ?_, ?_⟩ <;> (unfold disentangle_approx_TRM_run; rw [hshape]; rfl)

/-- Witness for C10 at concrete keyword configurations 3 and 4. -/
theorem claim_C10_kwargs_forwarded_not_into_iterates_witness :
    (disentangle_approx_TRM_run trmEngineNatK theta0 2 none (some 2) 0 (some 50) none
        3).kwargs_to_engine? = some 3 :=
  (claim_C10_kwargs_forwarded_not_into_iterates trmEngineNatK theta0 2 none (some 2) 0
    (some 50) none 3 4 1 2 2 1 rfl).1

/-- C1 evaluation at a failing input: both exact drivers return the
optimizer engine's final iterate object itself — an iterate carrying
theta and the constructor hyperparameters — rather than the 4-index
unitary array extracted from it (the docstrings promise U_final as an
np.ndarray of shape (i, j, i*, j*)). -/
theorem claim_C1_drivers_return_iterate_object :
    (disentangle_CG_run cgEngine0 theta0 2 none ()).final_iterate?
      = some (.truncErrorIterateCG (initial_unitary 2 2) theta0 2 none none 0 none)
  ∧ (disentangle_TRM_run trmEngine0 theta0 2 none ()).final_iterate?
      = some (.truncErrorIterateTRM (initial_unitary 2 2) theta0 2) := by
  constructor <;> rfl

/-- The six debug keys the CG drivers may write. -/
def cgDebugKeys : List String :=
  ["N_iters_disentangler", "disentangler_num_restarts_not_descent",
   "disentangler_num_restarts_powell", "disentangler_iterates",
   "disentangler_costs", "disentangler_step_sizes"]

/-- The five debug keys the TRM drivers may write. -/
def trmDebugKeys : List String :=
  ["N_iters_disentangler", "disentangler_iterates", "disentangler_costs",
   "disentangler_deltas", "disentangler_tCG_iters"]

theorem lookupKey_setKey_self {Info : Type} (l : List (String × DebugValue Info))
    (k : String) (v : DebugValue Info) : lookupKey (setKey l k v) k = some v := by
  induction l with
  | nil => simp [setKey, lookupKey]
  | cons hd t ih =>
    obtain ⟨k', v'⟩ := hd
    by_cases h : k' = k
    · simp [setKey, h, lookupKey]
    · simp [setKey, h, lookupKey, ih]

theorem lookupKey_setKey_ne {Info : Type} (l : List (String × DebugValue Info))
    (k k' : String) (v : DebugValue Info) (h : k' ≠ k) :
    lookupKey (setKey l k v) k' = lookupKey l k' := by
  induction l with
  | nil => simp [setKey, lookupKey, Ne.symm h]
  | cons hd t ih =>
    obtain ⟨kf, vf⟩ := hd
    by_cases hf : kf = k
    · subst hf
      simp [setKey, lookupKey, Ne.symm h]
    · simp [setKey, hf, lookupKey, ih]

theorem lookupO_store_self {Info : Type} (d : DebugDict Info) (k : String)
    (v : DebugValue Info) : lookupO (dict_store (some d) k v) k = some v := by
  simpa [lookupO, dict_store, DebugDict.store] using
    lookupKey_setKey_self d.entries k v

theorem lookupO_store_ne {Info : Type} (dd : Option (DebugDict Info)) (k k' : String)
    (v : DebugValue Info) (h : k' ≠ k) :
    lookupO (dict_store dd k v) k' = lookupO dd k' := by
  cases dd with
  | none => rfl
  | some d =>
    simpa [lookupO, dict_store, DebugDict.store] using
      lookupKey_setKey_ne d.entries k k' v h

theorem append_some {Info : Type} (d : DebugDict Info) (k : String) (n : Nat) :
    append_to_dict_list (some d) k n
      = dict_store (some d) k (.natList (priorNats (some d) k ++ [n])) := by
  unfold append_to_dict_list dict_store priorNats lookupO
  cases hx : lookupKey d.entries k with
  | none => simp [hx]
  | some dv => cases dv <;> simp [hx]

theorem lookupO_append_self {Info : Type} (d : DebugDict Info) (k : String) (n : Nat) :
    lookupO (append_to_dict_list (some d) k n) k
      = some (.natList (priorNats (some d) k ++ [n])) := by
  rw [append_some]
  exact lookupO_store_self d k _

theorem lookupO_append_ne {Info : Type} (dd : Option (DebugDict Info)) (k k' : String)
    (n : Nat) (h : k' ≠ k) :
    lookupO (append_to_dict_list dd k n) k' = lookupO dd k' := by
  cases dd with
  | none => rfl
  | some d =>
    rw [append_some]
    exact lookupO_store_ne (some d) k k' _ h

theorem priorNats_congr {Info : Type} (dd1 dd2 : Option (DebugDict Info)) (k : String)
    (h : lookupO dd1 k = lookupO dd2 k) : priorNats dd1 k = priorNats dd2 k := by
  unfold priorNats
  rw [h]

theorem check_some_of_true {Info : Type} (dd : Option (DebugDict Info))
    (lvl : DebugLevel) (h : check_debug_level dd lvl = true) :
    ∃ d, dd = some d := by
  cases dd with
  | none => exact absurd h (by simp [check_debug_level])
  | some d => exact ⟨d, rfl⟩

theorem check_eq_of_levelO {Info : Type} (dd dd' : Option (DebugDict Info))
    (h : levelO dd = levelO dd') (lvl : DebugLevel) :
    check_debug_level dd lvl = check_debug_level dd' lvl := by
  cases dd with
  | none =>
    cases dd' with
    | none => rfl
    | some d' => exact absurd h (by simp [levelO])
  | some d =>
    cases dd' with
    | none => exact absurd h (by simp [levelO])
    | some d' =>
      have hl : d.level = d'.level := by
        simpa [levelO] using h
      simp [check_debug_level, hl]

theorem dict_store_some {Info : Type} (d : DebugDict Info) (k : String)
    (v : DebugValue Info) : dict_store (some d) k v = some (d.store k v) := rfl

theorem append_some' {Info : Type} (d : DebugDict Info) (k : String) (n : Nat) :
    append_to_dict_list (some d) k n
      = some (d.store k (.natList (priorNats (some d) k ++ [n]))) := by
  rw [append_some]
  rfl

theorem priorNats_append_ne {Info : Type} (dd : Option (DebugDict Info)) (k k' : String)
    (n : Nat) (h : k' ≠ k) :
    priorNats (append_to_dict_list dd k n) k' = priorNats dd k' :=
  priorNats_congr _ _ _ (lookupO_append_ne dd k k' n h)

theorem priorNats_store_ne {Info : Type} (dd : Option (DebugDict Info)) (k k' : String)
    (v : DebugValue Info) (h : k' ≠ k) :
    priorNats (dict_store dd k v) k' = priorNats dd k' :=
  priorNats_congr _ _ _ (lookupO_store_ne dd k k' v h)

theorem cg_write_debug_off {Info : Type} (dd : Option (DebugDict Info)) (n a b : Nat)
    (i : Info × Info × Info)
    (h : check_debug_level dd
      .LOG_DISENTANGLER_TRIPARTITE_DECOMPOSITION_ITERATION_INFO = false) :
    cg_write_debug dd n a b i false = dd := by
  unfold cg_write_debug
  rw [h]
  rfl

theorem cg_write_debug_iter_only {Info : Type} (dd : Option (DebugDict Info))
    (n a b : Nat) (i : Info × Info × Info)
    (h : check_debug_level dd
      .LOG_DISENTANGLER_TRIPARTITE_DECOMPOSITION_ITERATION_INFO = true) :
    cg_write_debug dd n a b i false
      = append_to_dict_list (append_to_dict_list (append_to_dict_list dd
          "N_iters_disentangler" n) "disentangler_num_restarts_not_descent" a)
          "disentangler_num_restarts_powell" b := by
  unfold cg_write_debug
  rw [h]
  rfl

theorem cg_write_debug_per_only {Info : Type} (dd : Option (DebugDict Info))
    (n a b : Nat) (i : Info × Info × Info)
    (h : check_debug_level dd
      .LOG_DISENTANGLER_TRIPARTITE_DECOMPOSITION_ITERATION_INFO = false) :
    cg_write_debug dd n a b i true
      = dict_store (dict_store (dict_store dd "disentangler_iterates" (.info i.1))
          "disentangler_costs" (.info i.2.1)) "disentangler_step_sizes" (.info i.2.2) := by
  unfold cg_write_debug
  rw [h]
  rfl

theorem cg_write_debug_both {Info : Type} (dd : Option (DebugDict Info))
    (n a b : Nat) (i : Info × Info × Info)
    (h : check_debug_level dd
      .LOG_DISENTANGLER_TRIPARTITE_DECOMPOSITION_ITERATION_INFO = true) :
    cg_write_debug dd n a b i true
      = dict_store (dict_store (dict_store
          (append_to_dict_list (append_to_dict_list (append_to_dict_list dd
            "N_iters_disentangler" n) "disentangler_num_restarts_not_descent" a)
            "disentangler_num_restarts_powell" b)
          "disentangler_iterates" (.info i.1))
          "disentangler_costs" (.info i.2.1)) "disentangler_step_sizes" (.info i.2.2) := by
  unfold cg_write_debug
  rw [h]
  rfl

theorem trm_write_debug_off {Info : Type} (dd : Option (DebugDict Info)) (n : Nat)
    (i : Info × Info × Info × Info)
    (h : check_debug_level dd
      .LOG_DISENTANGLER_TRIPARTITE_DECOMPOSITION_ITERATION_INFO = false) :
    trm_write_debug dd n i false = dd := by
  unfold trm_write_debug
  rw [h]
  rfl

theorem trm_write_debug_iter_only {Info : Type} (dd : Option (DebugDict Info)) (n : Nat)
    (i : Info × Info × Info × Info)
    (h : check_debug_level dd
      .LOG_DISENTANGLER_TRIPARTITE_DECOMPOSITION_ITERATION_INFO = true) :
    trm_write_debug dd n i false
      = append_to_dict_list dd "N_iters_disentangler" n := by
  unfold trm_write_debug
  rw [h]
  rfl

theorem trm_write_debug_per_only {Info : Type} (dd : Option (DebugDict Info)) (n : Nat)
    (i : Info × Info × Info × Info)
    (h : check_debug_level dd
      .LOG_DISENTANGLER_TRIPARTITE_DECOMPOSITION_ITERATION_INFO = false) :
    trm_write_debug dd n i true
      = dict_store (dict_store (dict_store (dict_store dd
          "disentangler_iterates" (.info i.1))
          "disentangler_costs" (.info i.2.1))
          "disentangler_deltas" (.info i.2.2.1))
          "disentangler_tCG_iters" (.info i.2.2.2) := by
  unfold trm_write_debug
  rw [h]
  rfl

theorem trm_write_debug_both {Info : Type} (dd : Option (DebugDict Info)) (n : Nat)
    (i : Info × Info × Info × Info)
    (h : check_debug_level dd
      .LOG_DISENTANGLER_TRIPARTITE_DECOMPOSITION_ITERATION_INFO = true) :
    trm_write_debug dd n i true
      = dict_store (dict_store (dict_store (dict_store
          (append_to_dict_list dd "N_iters_disentangler" n)
          "disentangler_iterates" (.info i.1))
          "disentangler_costs" (.info i.2.1))
          "disentangler_deltas" (.info i.2.2.1))
          "disentangler_tCG_iters" (.info i.2.2.2) := by
  unfold trm_write_debug
  rw [h]
  rfl

/-- C8: each driver writes to the debug dictionary only under the
corresponding debug-level predicate and only at its fixed named keys —
per-run counters appended to lists, per-iteration keys overwritten — all
other entries are left unchanged, and the returned value never depends on
the stored entries (nothing is read back; the gating predicate reads only
the configured level). -/
theorem claim_C8_debug_dict_discipline {Info K : Type} (eC : CGEngine Info K)
    (eT : TRMEngine Info K) (theta : NDArray) (chi : Nat) (Ns : Option Nat)
    (eps : ℚ) (Ni : Option Nat) (cm : Option Nat) (dd dd' : Option (DebugDict Info))
    (kwargs : K) (n a b : Nat) (i3 : Info × Info × Info)
    (i4 : Info × Info × Info × Info) (flag : Bool) :
    (∀ k, k ∉ cgDebugKeys → lookupO (cg_write_debug dd n a b i3 flag) k = lookupO dd k)
  ∧ (∀ k, k ∉ trmDebugKeys → lookupO (trm_write_debug dd n i4 flag) k = lookupO dd k)
  ∧ (check_debug_level dd .LOG_DISENTANGLER_TRIPARTITE_DECOMPOSITION_ITERATION_INFO
        = false →
      cg_write_debug dd n a b i3 false = dd ∧ trm_write_debug dd n i4 false = dd)
  ∧ (check_debug_level dd .LOG_DISENTANGLER_TRIPARTITE_DECOMPOSITION_ITERATION_INFO
        = true →
      lookupO (cg_write_debug dd n a b i3 flag) "N_iters_disentangler"
        = some (.natList (priorNats dd "N_iters_disentangler" ++ [n]))
    ∧ lookupO (cg_write_debug dd n a b i3 flag) "disentangler_num_restarts_not_descent"
        = some (.natList (priorNats dd "disentangler_num_restarts_not_descent" ++ [a]))
    ∧ lookupO (cg_write_debug dd n a b i3 flag) "disentangler_num_restarts_powell"
        = some (.natList (priorNats dd "disentangler_num_restarts_powell" ++ [b]))
    ∧ lookupO (trm_write_debug dd n i4 flag) "N_iters_disentangler"
        = some (.natList (priorNats dd "N_iters_disentangler" ++ [n])))
  ∧ (check_debug_level dd
        .LOG_PER_ITERATION_DEBUG_INFO_DISENTANGLER_TRIPARTITE_DECOMPOSITION = true →
      lookupO (cg_write_debug dd n a b i3 true) "disentangler_iterates"
        = some (.info i3.1)
    ∧ lookupO (cg_write_debug dd n a b i3 true) "disentangler_costs"
        = some (.info i3.2.1)
    ∧ lookupO (cg_write_debug dd n a b i3 true) "disentangler_step_sizes"
        = some (.info i3.2.2)
    ∧ lookupO (trm_write_debug dd n i4 true) "disentangler_iterates"
        = some (.info i4.1)
    ∧ lookupO (trm_write_debug dd n i4 true) "disentangler_costs"
        = some (.info i4.2.1)
    ∧ lookupO (trm_write_debug dd n i4 true) "disentangler_deltas"
        = some (.info i4.2.2.1)
    ∧ lookupO (trm_write_debug dd n i4 true) "disentangler_tCG_iters"
        = some (.info i4.2.2.2))
  ∧ (∀ c, (disentangle_CG_run eC theta chi dd kwargs).value = .ok (.cg c) →
      (disentangle_CG_run eC theta chi dd kwargs).debug_dict_after
        = cg_write_debug dd c.n_iters c.num_restarts_not_descent c.num_restarts_powell
            c.debug_info c.log_debug_info)
  ∧ (∀ c, (disentangle_approx_CG_run eC theta chi Ns eps Ni dd kwargs).value
        = .ok (.cg c) →
      (disentangle_approx_CG_run eC theta chi Ns eps Ni dd kwargs).debug_dict_after
        = cg_write_debug dd c.n_iters c.num_restarts_not_descent c.num_restarts_powell
            c.debug_info c.log_debug_info)
  ∧ (∀ c, (disentangle_TRM_run eT theta chi dd kwargs).value = .ok (.trm c) →
      (disentangle_TRM_run eT theta chi dd kwargs).debug_dict_after
        = trm_write_debug dd c.n_iters c.debug_info c.log_debug_info)
  ∧ (∀ c, (disentangle_approx_TRM_run eT theta chi cm Ns eps Ni dd kwargs).value
        = .ok (.trm c) →
      (disentangle_approx_TRM_run eT theta chi cm Ns eps Ni dd kwargs).debug_dict_after
        = trm_write_debug dd c.n_iters c.debug_info c.log_debug_info)
  ∧ (∀ e : PyError,
      ((disentangle_CG_run eC theta chi dd kwargs).value = .error e →
        (disentangle_CG_run eC theta chi dd kwargs).debug_dict_after = dd)
    ∧ ((disentangle_approx_CG_run eC theta chi Ns eps Ni dd kwargs).value = .error e →
        (disentangle_approx_CG_run eC theta chi Ns eps Ni dd kwargs).debug_dict_after = dd)
    ∧ ((disentangle_TRM_run eT theta chi dd kwargs).value = .error e →
        (disentangle_TRM_run eT theta chi dd kwargs).debug_dict_after = dd)
    ∧ ((disentangle_approx_TRM_run eT theta chi cm Ns eps Ni dd kwargs).value
          = .error e →
        (disentangle_approx_TRM_run eT theta chi cm Ns eps Ni dd
          kwargs).debug_dict_after = dd))
  ∧ (levelO dd = levelO dd' →
      (disentangle_CG_run eC theta chi dd kwargs).value
        = (disentangle_CG_run eC theta chi dd' kwargs).value
    ∧ (disentangle_approx_CG_run eC theta chi Ns eps Ni dd kwargs).value
        = (disentangle_approx_CG_run eC theta chi Ns eps Ni dd' kwargs).value
    ∧ (disentangle_TRM_run eT theta chi dd kwargs).value
        = (disentangle_TRM_run eT theta chi dd' kwargs).value
    ∧ (disentangle_approx_TRM_run eT theta chi cm Ns eps Ni dd kwargs).value
        = (disentangle_approx_TRM_run eT theta chi cm Ns eps Ni dd' kwargs).value) := by
  have frame_cg : ∀ k, k ∉ cgDebugKeys →
      lookupO (cg_write_debug dd n a b i3 flag) k = lookupO dd k := by
    intro k hk
    simp only [cgDebugKeys, List.mem_cons, List.not_mem_nil, or_false, not_or] at hk
    obtain ⟨h1, h2, h3, h4, h5, h6⟩ := hk
    cases hIter : check_debug_level dd
        .LOG_DISENTANGLER_TRIPARTITE_DECOMPOSITION_ITERATION_INFO with
    | false =>
      cases flag with
      | false => rw [cg_write_debug_off dd n a b i3 hIter]
      | true =>
        rw [cg_write_debug_per_only dd n a b i3 hIter]
        rw [lookupO_store_ne _ _ _ _ h6, lookupO_store_ne _ _ _ _ h5,
          lookupO_store_ne _ _ _ _ h4]
    | true =>
      cases flag with
      | false =>
        rw [cg_write_debug_iter_only dd n a b i3 hIter]
        rw [lookupO_append_ne _ _ _ _ h3, lookupO_append_ne _ _ _ _ h2,
          lookupO_append_ne _ _ _ _ h1]
      | true =>
        rw [cg_write_debug_both dd n a b i3 hIter]
        rw [lookupO_store_ne _ _ _ _ h6, lookupO_store_ne _ _ _ _ h5,
          lookupO_store_ne _ _ _ _ h4, lookupO_append_ne _ _ _ _ h3,
          lookupO_append_ne _ _ _ _ h2, lookupO_append_ne _ _ _ _ h1]
  have frame_trm : ∀ k, k ∉ trmDebugKeys →
      lookupO (trm_write_debug dd n i4 flag) k = lookupO dd k := by
    intro k hk
    simp only [trmDebugKeys, List.mem_cons, List.not_mem_nil, or_false, not_or] at hk
    obtain ⟨h1, h2, h3, h4, h5⟩ := hk
    cases hIter : check_debug_level dd
        .LOG_DISENTANGLER_TRIPARTITE_DECOMPOSITION_ITERATION_INFO with
    | false =>
      cases flag with
      | false => rw [trm_write_debug_off dd n i4 hIter]
      | true =>
        rw [trm_write_debug_per_only dd n i4 hIter]
        rw [lookupO_store_ne _ _ _ _ h5, lookupO_store_ne _ _ _ _ h4,
          lookupO_store_ne _ _ _ _ h3, lookupO_store_ne _ _ _ _ h2]
    | true =>
      cases flag with
      | false =>
        rw [trm_write_debug_iter_only dd n i4 hIter]
        rw [lookupO_append_ne _ _ _ _ h1]
      | true =>
        rw [trm_write_debug_both dd n i4 hIter]
        rw [lookupO_store_ne _ _ _ _ h5, lookupO_store_ne _ _ _ _ h4,
          lookupO_store_ne _ _ _ _ h3, lookupO_store_ne _ _ _ _ h2,
          lookupO_append_ne _ _ _ _ h1]
  have nowrite : check_debug_level dd
      .LOG_DISENTANGLER_TRIPARTITE_DECOMPOSITION_ITERATION_INFO = false →
      cg_write_debug dd n a b i3 false = dd ∧ trm_write_debug dd n i4 false = dd := by
    intro hIter
    exact ⟨cg_write_debug_off dd n a b i3 hIter, trm_write_debug_off dd n i4 hIter⟩
  have happend : check_debug_level dd
      .LOG_DISENTANGLER_TRIPARTITE_DECOMPOSITION_ITERATION_INFO = true →
      lookupO (cg_write_debug dd n a b i3 flag) "N_iters_disentangler"
        = some (.natList (priorNats dd "N_iters_disentangler" ++ [n]))
    ∧ lookupO (cg_write_debug dd n a b i3 flag) "disentangler_num_restarts_not_descent"
        = some (.natList (priorNats dd "disentangler_num_restarts_not_descent" ++ [a]))
    ∧ lookupO (cg_write_debug dd n a b i3 flag) "disentangler_num_restarts_powell"
        = some (.natList (priorNats dd "disentangler_num_restarts_powell" ++ [b]))
    ∧ lookupO (trm_write_debug dd n i4 flag) "N_iters_disentangler"
        = some (.natList (priorNats dd "N_iters_disentangler" ++ [n])) := by
    intro hIter
    obtain ⟨d, rfl⟩ := check_some_of_true dd _ hIter
    have skipPerCg : ∀ ddx : Option (DebugDict Info), ∀ k : String,
        k ≠ "disentangler_iterates" → k ≠ "disentangler_costs" →
        k ≠ "disentangler_step_sizes" →
        lookupO (dict_store (dict_store (dict_store ddx "disentangler_iterates"
            (DebugValue.info i3.1)) "disentangler_costs" (DebugValue.info i3.2.1))
            "disentangler_step_sizes" (DebugValue.info i3.2.2)) k = lookupO ddx k := by
      intro ddx k hki hkc hks
      rw [lookupO_store_ne _ _ _ _ hks, lookupO_store_ne _ _ _ _ hkc,
        lookupO_store_ne _ _ _ _ hki]
    have skipPerTrm : ∀ ddx : Option (DebugDict Info), ∀ k : String,
        k ≠ "disentangler_iterates" → k ≠ "disentangler_costs" →
        k ≠ "disentangler_deltas" → k ≠ "disentangler_tCG_iters" →
        lookupO (dict_store (dict_store (dict_store (dict_store ddx
            "disentangler_iterates" (DebugValue.info i4.1))
            "disentangler_costs" (DebugValue.info i4.2.1))
            "disentangler_deltas" (DebugValue.info i4.2.2.1))
            "disentangler_tCG_iters" (DebugValue.info i4.2.2.2)) k = lookupO ddx k := by
      intro ddx k hki hkc hkd hkt
      rw [lookupO_store_ne _ _ _ _ hkt, lookupO_store_ne _ _ _ _ hkd,
        lookupO_store_ne _ _ _ _ hkc, lookupO_store_ne _ _ _ _ hki]
    have key1 : lookupO (append_to_dict_list (append_to_dict_list (append_to_dict_list
        (some d) "N_iters_disentangler" n) "disentangler_num_restarts_not_descent" a)
        "disentangler_num_restarts_powell" b) "N_iters_disentangler"
        = some (.natList (priorNats (some d) "N_iters_disentangler" ++ [n])) := by
      rw [lookupO_append_ne _ _ _ _ (by decide), lookupO_append_ne _ _ _ _ (by decide)]
      exact lookupO_append_self d _ n
    have key2 : lookupO (append_to_dict_list (append_to_dict_list (append_to_dict_list
        (some d) "N_iters_disentangler" n) "disentangler_num_restarts_not_descent" a)
        "disentangler_num_restarts_powell" b) "disentangler_num_restarts_not_descent"
        = some (.natList (priorNats (some d) "disentangler_num_restarts_not_descent"
            ++ [a])) := by
      rw [lookupO_append_ne _ _ _ _ (by decide), append_some' d]
      rw [lookupO_append_self]
      rw [← dict_store_some, priorNats_store_ne _ _ _ _ (by decide)]
    have key3 : lookupO (append_to_dict_list (append_to_dict_list (append_to_dict_list
        (some d) "N_iters_disentangler" n) "disentangler_num_restarts_not_descent" a)
        "disentangler_num_restarts_powell" b) "disentangler_num_restarts_powell"
        = some (.natList (priorNats (some d) "disentangler_num_restarts_powell"
            ++ [b])) := by
      rw [append_some' d, ← dict_store_some, dict_store_some, append_some']
      rw [lookupO_append_self]
      rw [← dict_store_some, priorNats_store_ne _ _ _ _ (by decide),
        ← dict_store_some, priorNats_store_ne _ _ _ _ (by decide)]
    have key4 : lookupO (append_to_dict_list (some d) "N_iters_disentangler" n)
        "N_iters_disentangler"
        = some (.natList (priorNats (some d) "N_iters_disentangler" ++ [n])) :=
      lookupO_append_self d _ n
    cases flag with
    | false =>
      rw [cg_write_debug_iter_only _ n a b i3 hIter,
        trm_write_debug_iter_only _ n i4 hIter]
      exact ⟨key1, key2, key3, key4⟩
    | true =>
      rw [cg_write_debug_both _ n a b i3 hIter, trm_write_debug_both _ n i4 hIter]
      refine ⟨?_, ?_, ?_, ?_⟩
      · rw [skipPerCg _ _ (by decide) (by decide) (by decide)]
        exact key1
      · rw [skipPerCg _ _ (by decide) (by decide) (by decide)]
        exact key2
      · rw [skipPerCg _ _ (by decide) (by decide) (by decide)]
        exact key3
      · rw [skipPerTrm _ _ (by decide) (by decide) (by decide) (by decide)]
        exact key4
  have hoverwrite : check_debug_level dd
      .LOG_PER_ITERATION_DEBUG_INFO_DISENTANGLER_TRIPARTITE_DECOMPOSITION = true →
      lookupO (cg_write_debug dd n a b i3 true) "disentangler_iterates"
        = some (.info i3.1)
    ∧ lookupO (cg_write_debug dd n a b i3 true) "disentangler_costs"
        = some (.info i3.2.1)
    ∧ lookupO (cg_write_debug dd n a b i3 true) "disentangler_step_sizes"
        = some (.info i3.2.2)
    ∧ lookupO (trm_write_debug dd n i4 true) "disentangler_iterates"
        = some (.info i4.1)
    ∧ lookupO (trm_write_debug dd n i4 true) "disentangler_costs"
        = some (.info i4.2.1)
    ∧ lookupO (trm_write_debug dd n i4 true) "disentangler_deltas"
        = some (.info i4.2.2.1)
    ∧ lookupO (trm_write_debug dd n i4 true) "disentangler_tCG_iters"
        = some (.info i4.2.2.2) := by
    intro hper
    obtain ⟨d, rfl⟩ := check_some_of_true dd _ hper
    have base_cg : ∃ d1 : DebugDict Info,
        (if check_debug_level (some d)
            .LOG_DISENTANGLER_TRIPARTITE_DECOMPOSITION_ITERATION_INFO then
          append_to_dict_list (append_to_dict_list (append_to_dict_list (some d)
            "N_iters_disentangler" n) "disentangler_num_restarts_not_descent" a)
            "disentangler_num_restarts_powell" b
        else (some d)) = some d1 := by
      cases hIter : check_debug_level (some d)
          .LOG_DISENTANGLER_TRIPARTITE_DECOMPOSITION_ITERATION_INFO with
      | false =>
        exact ⟨d, by rw [if_neg (by simp [hIter])]⟩
      | true =>
        rw [if_pos (by simp [hIter])]
        rw [append_some' d, append_some', append_some']
        exact ⟨_, rfl⟩
    have cg_form : ∃ d1 : DebugDict Info, cg_write_debug (some d) n a b i3 true
        = dict_store (dict_store (dict_store (some d1) "disentangler_iterates"
            (DebugValue.info i3.1)) "disentangler_costs" (DebugValue.info i3.2.1))
            "disentangler_step_sizes" (DebugValue.info i3.2.2) := by
      cases hIter : check_debug_level (some d)
          .LOG_DISENTANGLER_TRIPARTITE_DECOMPOSITION_ITERATION_INFO with
      | false => exact ⟨d, cg_write_debug_per_only _ n a b i3 hIter⟩
      | true =>
        refine ⟨?_, ?_⟩
        · exact (d.store "N_iters_disentangler"
            (.natList (priorNats (some d) "N_iters_disentangler" ++ [n]))).store
            "disentangler_num_restarts_not_descent"
            (.natList (priorNats (append_to_dict_list (some d) "N_iters_disentangler" n)
              "disentangler_num_restarts_not_descent" ++ [a])) |>.store
            "disentangler_num_restarts_powell"
            (.natList (priorNats (append_to_dict_list (append_to_dict_list (some d)
              "N_iters_disentangler" n) "disentangler_num_restarts_not_descent" a)
              "disentangler_num_restarts_powell" ++ [b]))
        · rw [cg_write_debug_both _ n a b i3 hIter]
          rw [append_some' d, ← dict_store_some, dict_store_some, append_some',
            ← dict_store_some, dict_store_some, append_some']
    have trm_form : ∃ d1 : DebugDict Info, trm_write_debug (some d) n i4 true
        = dict_store (dict_store (dict_store (dict_store (some d1)
            "disentangler_iterates" (DebugValue.info i4.1))
            "disentangler_costs" (DebugValue.info i4.2.1))
            "disentangler_deltas" (DebugValue.info i4.2.2.1))
            "disentangler_tCG_iters" (DebugValue.info i4.2.2.2) := by
      cases hIter : check_debug_level (some d)
          .LOG_DISENTANGLER_TRIPARTITE_DECOMPOSITION_ITERATION_INFO with
      | false => exact ⟨d, trm_write_debug_per_only _ n i4 hIter⟩
      | true =>
        refine ⟨d.store "N_iters_disentangler"
          (.natList (priorNats (some d) "N_iters_disentangler" ++ [n])), ?_⟩
        rw [trm_write_debug_both _ n i4 hIter, append_some' d]
    obtain ⟨d1, hd1⟩ := cg_form
    obtain ⟨d2, hd2⟩ := trm_form
    rw [hd1, hd2]
    refine ⟨?_, ?_, ?_, ?_, ?_, ?_, ?_⟩
    · rw [lookupO_store_ne _ _ _ _ (by decide), lookupO_store_ne _ _ _ _ (by decide)]
      exact lookupO_store_self d1 _ _
    · rw [lookupO_store_ne _ _ _ _ (by decide), dict_store_some]
      exact lookupO_store_self _ _ _
    · rw [dict_store_some, dict_store_some]
      exact lookupO_store_self _ _ _
    · rw [lookupO_store_ne _ _ _ _ (by decide), lookupO_store_ne _ _ _ _ (by decide),
        lookupO_store_ne _ _ _ _ (by decide)]
      exact lookupO_store_self d2 _ _
    · rw [lookupO_store_ne _ _ _ _ (by decide), lookupO_store_ne _ _ _ _ (by decide),
        dict_store_some]
      exact lookupO_store_self _ _ _
    · rw [lookupO_store_ne _ _ _ _ (by decide), dict_store_some, dict_store_some]
      exact lookupO_store_self _ _ _
    · rw [dict_store_some, dict_store_some, dict_store_some]
      exact lookupO_store_self _ _ _
  have conn_cg : ∀ c, (disentangle_CG_run eC theta chi dd kwargs).value
      = .ok (.cg c) →
      (disentangle_CG_run eC theta chi dd kwargs).debug_dict_after
        = cg_write_debug dd c.n_iters c.num_restarts_not_descent c.num_restarts_powell
            c.debug_info c.log_debug_info := by
    intro c h
    unfold disentangle_CG_run at h ⊢
    split at h
    next x l D1 D2 r heq =>
      injection h with h1
      injection h1 with h2
      subst h2
      rfl
    next x hne => exact Except.noConfusion h
  have conn_acg : ∀ c, (disentangle_approx_CG_run eC theta chi Ns eps Ni dd
      kwargs).value = .ok (.cg c) →
      (disentangle_approx_CG_run eC theta chi Ns eps Ni dd kwargs).debug_dict_after
        = cg_write_debug dd c.n_iters c.num_restarts_not_descent c.num_restarts_powell
            c.debug_info c.log_debug_info := by
    intro c h
    unfold disentangle_approx_CG_run at h ⊢
    split at h
    next x l D1 D2 r heq =>
      injection h with h1
      injection h1 with h2
      subst h2
      rfl
    next x hne => exact Except.noConfusion h
  have conn_trm : ∀ c, (disentangle_TRM_run eT theta chi dd kwargs).value
      = .ok (.trm c) →
      (disentangle_TRM_run eT theta chi dd kwargs).debug_dict_after
        = trm_write_debug dd c.n_iters c.debug_info c.log_debug_info := by
    intro c h
    unfold disentangle_TRM_run at h ⊢
    split at h
    next x l D1 D2 r heq =>
      injection h with h1
      injection h1 with h2
      subst h2
      rfl
    next x hne => exact Except.noConfusion h
  have conn_atrm : ∀ c, (disentangle_approx_TRM_run eT theta chi cm Ns eps Ni dd
      kwargs).value = .ok (.trm c) →
      (disentangle_approx_TRM_run eT theta chi cm Ns eps Ni dd
        kwargs).debug_dict_after
        = trm_write_debug dd c.n_iters c.debug_info c.log_debug_info := by
    intro c h
    unfold disentangle_approx_TRM_run at h ⊢
    split at h
    next x l D1 D2 r heq =>
      injection h with h1
      injection h1 with h2
      subst h2
      rfl
    next x hne => exact Except.noConfusion h
  have herr : ∀ e : PyError,
      ((disentangle_CG_run eC theta chi dd kwargs).value = .error e →
        (disentangle_CG_run eC theta chi dd kwargs).debug_dict_after = dd)
    ∧ ((disentangle_approx_CG_run eC theta chi Ns eps Ni dd kwargs).value
          = .error e →
        (disentangle_approx_CG_run eC theta chi Ns eps Ni dd kwargs).debug_dict_after
          = dd)
    ∧ ((disentangle_TRM_run eT theta chi dd kwargs).value = .error e →
        (disentangle_TRM_run eT theta chi dd kwargs).debug_dict_after = dd)
    ∧ ((disentangle_approx_TRM_run eT theta chi cm Ns eps Ni dd kwargs).value
          = .error e →
        (disentangle_approx_TRM_run eT theta chi cm Ns eps Ni dd
          kwargs).debug_dict_after = dd) := by
    intro e
    refine ⟨?_, ?_, ?_, ?_⟩
    · intro h
      unfold disentangle_CG_run at h ⊢
      split at h
      next x l D1 D2 r heq => exact Except.noConfusion h
      next x hne => rfl
    · intro h
      unfold disentangle_approx_CG_run at h ⊢
      split at h
      next x l D1 D2 r heq => exact Except.noConfusion h
      next x hne => rfl
    · intro h
      unfold disentangle_TRM_run at h ⊢
      split at h
      next x l D1 D2 r heq => exact Except.noConfusion h
      next x hne => rfl
    · intro h
      unfold disentangle_approx_TRM_run at h ⊢
      split at h
      next x l D1 D2 r heq => exact Except.noConfusion h
      next x hne => rfl
  have hreadback : levelO dd = levelO dd' →
      (disentangle_CG_run eC theta chi dd kwargs).value
        = (disentangle_CG_run eC theta chi dd' kwargs).value
    ∧ (disentangle_approx_CG_run eC theta chi Ns eps Ni dd kwargs).value
        = (disentangle_approx_CG_run eC theta chi Ns eps Ni dd' kwargs).value
    ∧ (disentangle_TRM_run eT theta chi dd kwargs).value
        = (disentangle_TRM_run eT theta chi dd' kwargs).value
    ∧ (disentangle_approx_TRM_run eT theta chi cm Ns eps Ni dd kwargs).value
        = (disentangle_approx_TRM_run eT theta chi cm Ns eps Ni dd' kwargs).value := by
    intro hlev
    have hchk := check_eq_of_levelO dd dd' hlev
    refine ⟨?_, ?_, ?_, ?_⟩
    · unfold disentangle_CG_run
      split
      next x l D1 D2 r heq => simp only [hchk]
      next x hne => rfl
    · unfold disentangle_approx_CG_run
      split
      next x l D1 D2 r heq => simp only [hchk]
      next x hne => rfl
    · unfold disentangle_TRM_run
      split
      next x l D1 D2 r heq => simp only [hchk]
      next x hne => rfl
    · unfold disentangle_approx_TRM_run
      split
      next x l D1 D2 r heq => simp only [hchk]
      next x hne => rfl
  exact ⟨frame_cg, frame_trm, nowrite, happend, hoverwrite, conn_cg, conn_acg,
    conn_trm, conn_atrm, herr, hreadback⟩

/-- Concrete debug dictionary fixture at level 1 (iteration-info enabled,
per-iteration disabled) with no entries. -/
def ddLvl1 : Option (DebugDict Nat) := some ⟨1, []⟩

/-- Witness for C8: with iteration-info logging enabled on an empty
dictionary, the CG write appends the iteration count 7 as a fresh
one-element counter list. -/
theorem claim_C8_debug_dict_discipline_witness :
    lookupO (cg_write_debug ddLvl1 7 1 2 ((0 : Nat), 0, 0) false) "N_iters_disentangler"
      = some (.natList [7]) := by
  have h := (claim_C8_debug_dict_discipline cgEngine0 trmEngine0 theta0 2 (some 5) 0
    (some 50) none ddLvl1 ddLvl1 () 7 1 2 (0, 0, 0) (0, 0, 0, 0)
    false).2.2.2.1 rfl
  simpa using h.1

end DisoTPS
